import Mathlib

set_option maxRecDepth 100000

/-!
Shallow embedding of the multi-platform tracking SDK core
(src/utils.ts and src/MetaConversionTracker.ts) and proofs about it.

JavaScript conventions modelled explicitly:
  * truthiness of an optional string (`if (x)`) is `optTruthy`:
    absent or empty string is falsy;
  * truthiness of an optional number is "present and nonzero";
  * `x || d` on numbers/lists is `Option.getD` (0 is falsy, so
    `0 || 0 = 0` agrees with `getD 0`);
  * UTF-16 code units are modelled as code points (all inputs used in
    the development are ASCII, where the two coincide).
-/

/-- JS `toLowerCase`, modelled character-wise (agrees on ASCII). -/
def jsToLower (s : String) : String := String.mk (s.data.map Char.toLower)

/-- JS `trim`: drop leading and trailing whitespace. -/
def jsTrim (s : String) : String :=
  String.mk (((s.data.dropWhile Char.isWhitespace).reverse.dropWhile Char.isWhitespace).reverse)

/-- JS truthiness of an optional string field: absent and `""` are falsy. -/
def optTruthy : Option String → Bool
  | some s => s != ""
  | none => false

/-- A JS value passed where a string is expected: the source guards with
`typeof data !== 'string'`. -/
inductive JSVal where
  | str (s : String)
  | nonString
deriving DecidableEq

/-- Wrap an integer into the signed 32-bit range, as JS `ToInt32` does. -/
def toInt32 (n : Int) : Int :=
  let m := n % 4294967296
  if m < 2147483648 then m else m - 4294967296

/-- One step of the fallback checksum in `hashData`/`hashDataSync`:
`hash = (hash << 5) - hash + char; hash = hash & hash`.  `h` is already
an int32, so `h << 5` is `toInt32 (h * 32)`; the outer `& hash` is the
final `ToInt32`. -/
def simpleHashStep (h : Int) (c : Nat) : Int :=
  toInt32 (toInt32 (h * 32) - h + c)

/-- The fallback (non-cryptographic) checksum of `hashDataSync`:
fold the step over the characters, then `Math.abs(hash).toString(16)`. -/
def simpleHash (s : String) : String :=
  let h := s.data.foldl (fun h c => simpleHashStep h c.toNat) 0
  String.mk (Nat.toDigits 16 h.natAbs)

/-- The runtime environment probe made by `hashDataSync`:
whether `process.versions.node` exists, and whether `require('crypto')`
succeeds. -/
structure RuntimeEnv where
  hasNodeProcess : Bool
  nodeCryptoWorks : Bool
deriving DecidableEq

/-- `hashDataSync` from src/utils.ts.  The SHA-256 primitive of the Node
`crypto` module is a parameter `sha256` (a fixed function of the digested
string); the environment probe decides between it and the fallback
checksum.  Falsy (`""`) or non-string input returns `""` before any
digesting; otherwise the input is lower-cased and trimmed first. -/
def hashDataSync (sha256 : String → String) (env : RuntimeEnv) (data : JSVal) : String :=
  match data with
  | .nonString => ""
  | .str s =>
    if s = "" then ""
    else
      let normalizedData := jsTrim (jsToLower s)
      if env.hasNodeProcess && env.nodeCryptoWorks then sha256 normalizedData
      else simpleHash normalizedData

/-- The digest actually applied to the normalized input: SHA-256 when the
Node crypto path is taken, the fallback checksum otherwise. -/
def digestDispatch (sha256 : String → String) (env : RuntimeEnv) (s : String) : String :=
  if env.hasNodeProcess && env.nodeCryptoWorks then sha256 s else simpleHash s

/-- `UserData` from src/types.ts (the fields used by the normalizer and
the wire builder). -/
structure UserData where
  email : Option String := none
  phone : Option String := none
  firstName : Option String := none
  lastName : Option String := none
  externalId : Option String := none
  zipCode : Option String := none
  city : Option String := none
  state : Option String := none
  country : Option String := none
  dateOfBirth : Option String := none
  gender : Option String := none
  clientIpAddress : Option String := none
  clientUserAgent : Option String := none
  fbc : Option String := none
  fbp : Option String := none
  subscriptionId : Option String := none
  fbLoginId : Option String := none
  leadId : Option String := none
  f5first : Option String := none
  f5last : Option String := none
  fi : Option String := none
  dobd : Option String := none
  dobm : Option String := none
  doby : Option String := none
deriving DecidableEq

/-- `if (field) field = hash(field)` on an optional string field. -/
def hashField (hash : String → String) : Option String → Option String
  | some s => if s = "" then some s else some (hash s)
  | none => none

/-- `normalizeUserData` from src/utils.ts, with the ambient `hashDataSync`
abstracted as `hash`.  Hashes email, digits-only phone, first/last name,
external id, zip, city, and lower-cased state/country; every other field
is carried over unchanged by the initial spread. -/
def normalizeUserData (hash : String → String) (u : UserData) : UserData :=
  { u with
    email := hashField hash u.email,
    phone :=
      match u.phone with
      | some s => if s = "" then some s else some (hash (String.mk (s.data.filter Char.isDigit)))
      | none => none,
    firstName := hashField hash u.firstName,
    lastName := hashField hash u.lastName,
    externalId := hashField hash u.externalId,
    zipCode := hashField hash u.zipCode,
    city := hashField hash u.city,
    state :=
      match u.state with
      | some s => if s = "" then some s else some (hash (jsToLower s))
      | none => none,
    country :=
      match u.country with
      | some s => if s = "" then some s else some (hash (jsToLower s))
      | none => none }

/-- `TrackingError` built by `createTrackingError` in src/utils.ts:
an error value carrying a message and an optional code. -/
structure TrackingError where
  message : String
  code : Option String
deriving DecidableEq

/-- Observable behaviour of one run of `retry` from src/utils.ts:
how many times the wrapped function was invoked, the backoff delays
slept between invocations (in milliseconds, in order), and the final
outcome. -/
structure RetryTrace (E A : Type) where
  calls : Nat
  delays : List ℚ
  result : Except E A

/-- The loop body of `retry`: `i` is the current value of the loop
counter, `fuel` the number of loop iterations still allowed after this
one (`maxRetries - i`).  `action i` is the outcome of the `(i+1)`-th
invocation of `fn`; `jitter i` stands for the `Math.random() * 1000`
sample added to the `i`-th backoff delay. -/
def retryRun (action : Nat → Except E A) (delay : ℚ) (jitter : Nat → ℚ)
    (i : Nat) : (fuel : Nat) → RetryTrace E A
  | 0 =>
    match action i with
    | .ok v => ⟨1, [], .ok v⟩
    | .error e => ⟨1, [], .error e⟩
  | f + 1 =>
    match action i with
    | .ok v => ⟨1, [], .ok v⟩
    | .error _ =>
      let rest := retryRun action delay jitter (i + 1) f
      ⟨rest.calls + 1, (delay * 2 ^ i + jitter i) :: rest.delays, rest.result⟩

/-- `retry(fn, maxRetries, delay)` from src/utils.ts: the loop runs
`i = 0 .. maxRetries` inclusive, re-invoking `fn` after each failure and
re-raising the last error when the counter is exhausted. -/
def retry (action : Nat → Except E A) (maxRetries : Nat) (delay : ℚ)
    (jitter : Nat → ℚ) : RetryTrace E A :=
  retryRun action delay jitter 0 maxRetries

/-- Raw JSON body of a Conversion API reply, as consumed by
`transformResponse`; each field may be absent. -/
structure RawResponse where
  events_received : Option Int := none
  messages : Option (List String) := none
  fbtrace_id : Option String := none
  id : Option String := none
  num_processed_entries : Option Int := none
deriving DecidableEq

/-- `EventResponse` from src/types.ts, with the fields `transformResponse`
always populates made total. -/
structure EventResponse where
  eventsReceived : Int
  events_received : Int
  messages : List String
  fbtrace_id : Option String
  id : Option String
  numProcessedEntries : Int
deriving DecidableEq

/-- `transformResponse` from src/MetaConversionTracker.ts: `x || 0` and
`x || []` default absent fields to their zero value (`Option.getD`, which
agrees with JS `||` because `0 || 0 = 0` and `[] or` an array is the
array itself); `fbtrace_id` and `id` are passed through as-is. -/
def transformResponse (r : RawResponse) : EventResponse :=
  let eventsReceived := r.events_received.getD 0
  { eventsReceived := eventsReceived,
    events_received := eventsReceived,
    messages := r.messages.getD [],
    fbtrace_id := r.fbtrace_id,
    id := r.id,
    numProcessedEntries := r.num_processed_entries.getD 0 }

/-- Outcome of the single `fetch` performed by one `makeRequest` call.
`body` is the result of parsing the response body as JSON: `.error m`
means the parse rejected with message `m`.  `errMsg` is `error.message`
extracted from a non-2xx body when present (`statusText` fallback is
folded into it). -/
inductive FetchOutcome where
  | netFail (msg : String)
  | resp (status : Nat) (body : Except String RawResponse) (errMsg : Option String)

/-- `makeRequest` from src/MetaConversionTracker.ts (fetch path).  Every
failure — network rejection, non-2xx status, or a JSON parse failure of a
2xx response — is caught by the single surrounding `try`/`catch` and
rethrown as a `TrackingError` with code `API_ERROR`. -/
def makeRequest (o : FetchOutcome) : Except TrackingError RawResponse :=
  match o with
  | .netFail msg =>
    .error ⟨"API request failed: " ++ msg, some "API_ERROR"⟩
  | .resp status body errMsg =>
    if 200 ≤ status ∧ status < 300 then
      match body with
      | .ok r => .ok r
      | .error pm => .error ⟨"API request failed: " ++ pm, some "API_ERROR"⟩
    else
      .error ⟨"API request failed: HTTP " ++ toString status ++ ": " ++ errMsg.getD "",
        some "API_ERROR"⟩

/-- The retrying transport used by `sendEvent`/`sendBatchEvents`: the
action wraps `makeRequest` then `transformResponse`, run under `retry`
with the tracker's fixed `retryAttempts = 3` and `retryDelay = 1000`.
`outcomes i` is the network outcome of the `(i+1)`-th request. -/
def sendEventTransport (outcomes : Nat → FetchOutcome) (jitter : Nat → ℚ) :
    RetryTrace TrackingError EventResponse :=
  retry (fun i => (makeRequest (outcomes i)).map transformResponse) 3 1000 jitter

/-- `isValidPixelId` from src/utils.ts: the regex `^\d{15,16}$`, i.e.
15 or 16 characters, all decimal digits. -/
def isValidPixelId (s : String) : Bool :=
  (s.length = 15 || s.length = 16) && s.data.all Char.isDigit

/-- `isValidAccessToken` from src/utils.ts: a string of length strictly
greater than 50. -/
def isValidAccessToken (s : String) : Bool :=
  decide (s.length > 50)

/-- The currency whitelist of `isValidCurrency` in src/utils.ts. -/
def validCurrencies : List String :=
  ["USD", "EUR", "GBP", "CAD", "AUD", "JPY", "CNY", "INR", "BDT", "PKR",
   "NGN", "KES", "ZAR", "EGP", "AED", "SAR", "BRL", "MXN", "RUB", "TRY",
   "KRW", "SGD", "HKD", "NZD"]

/-- JS `toUpperCase`, modelled character-wise (agrees on ASCII). -/
def jsToUpper (s : String) : String := String.mk (s.data.map Char.toUpper)

/-- `isValidCurrency` from src/utils.ts. -/
def isValidCurrency (s : String) : Bool :=
  validCurrencies.contains (jsToUpper s)

/-- The fields of the configuration record that `validateConfig` reads. -/
structure ConfigRecord where
  pixelId : Option String := none
  accessToken : Option String := none
  currency : Option String := none
deriving DecidableEq

/-- `ValidationResult` from src/types.ts. -/
structure ValidationResult where
  isValid : Bool
  errors : List String
  warnings : List String
deriving DecidableEq

/-- `validateConfig` from src/utils.ts: a missing/invalid pixel id is an
error; a truthy access token shorter than 51 characters is an error; a
truthy unknown currency is only a warning; `isValid` iff no errors. -/
def validateConfig (c : ConfigRecord) : ValidationResult :=
  let pixelErrors : List String :=
    if !(optTruthy c.pixelId) then ["Pixel ID is required"]
    else if !(isValidPixelId (c.pixelId.getD "")) then ["Invalid Pixel ID format"]
    else []
  let tokenErrors : List String :=
    if optTruthy c.accessToken && !(isValidAccessToken (c.accessToken.getD "")) then
      ["Invalid access token format"]
    else []
  let warnings : List String :=
    if optTruthy c.currency && !(isValidCurrency (c.currency.getD "")) then
      ["Unsupported currency code"]
    else []
  { isValid := (pixelErrors ++ tokenErrors).isEmpty,
    errors := pixelErrors ++ tokenErrors,
    warnings := warnings }

/-- One entry of `customData.contents` (src/types.ts); `quantity` is
optional at runtime. -/
structure ContentItem where
  id : String
  quantity : Option Int := none
  itemPrice : Option ℚ := none
  title : Option String := none
  category : Option String := none
  brand : Option String := none
deriving DecidableEq

/-- One entry of the wire `contents` array built by `createCustomData`. -/
structure WireContent where
  id : String
  quantity : Int
  item_price : Option ℚ := none
  title : Option String := none
  category : Option String := none
  brand : Option String := none
deriving DecidableEq

/-- The per-item mapping inside `createCustomData`:
`quantity: content.quantity || 1` (0 and absent are falsy, so both give
1); `title`/`category`/`brand` only appear when truthy. -/
def mapContent (c : ContentItem) : WireContent :=
  { id := c.id,
    quantity := match c.quantity with | some q => if q = 0 then 1 else q | none => 1,
    item_price := c.itemPrice,
    title := if optTruthy c.title then c.title else none,
    category := if optTruthy c.category then c.category else none,
    brand := if optTruthy c.brand then c.brand else none }

/-- `CustomData` from src/types.ts, as read by `createCustomData`.
The open `customProperties` map is modelled as an association list with
string values (the values are opaque to the mapping). -/
structure CustomData where
  value : Option ℚ := none
  currency : Option String := none
  contentName : Option String := none
  contentCategory : Option String := none
  contentIds : Option (List String) := none
  contentType : Option String := none
  orderId : Option String := none
  searchString : Option String := none
  numItems : Option Int := none
  status : Option String := none
  deliveryCategory : Option String := none
  contents : Option (List ContentItem) := none
  customProperties : Option (List (String × String)) := none
deriving DecidableEq

/-- The wire custom-data record built by `createCustomData`. -/
structure WireCustomData where
  value : Option ℚ := none
  currency : Option String := none
  content_name : Option String := none
  content_category : Option String := none
  content_ids : Option (List String) := none
  content_type : Option String := none
  order_id : Option String := none
  search_string : Option String := none
  num_items : Option Int := none
  status : Option String := none
  delivery_category : Option String := none
  contents : Option (List WireContent) := none
  extraProperties : List (String × String) := []
deriving DecidableEq

/-- The reserved wire keys that `createCustomData` refuses to overwrite
from `customProperties`. -/
def reservedFields : List String :=
  ["value", "currency", "content_name", "content_category", "content_ids",
   "content_type", "order_id", "search_string", "num_items", "status",
   "delivery_category", "contents"]

/-- `createCustomData` from src/MetaConversionTracker.ts.
`value`/`numItems` are guarded by `!== undefined` (0 allowed); string
fields by truthiness; arrays (`contentIds`, `contents`) are truthy
whenever present; custom properties colliding with a reserved key are
silently dropped. -/
def createCustomData (c : CustomData) : WireCustomData :=
  { value := c.value,
    currency := if optTruthy c.currency then c.currency else none,
    content_name := if optTruthy c.contentName then c.contentName else none,
    content_category := if optTruthy c.contentCategory then c.contentCategory else none,
    content_ids := c.contentIds,
    content_type := if optTruthy c.contentType then c.contentType else none,
    order_id := if optTruthy c.orderId then c.orderId else none,
    search_string := if optTruthy c.searchString then c.searchString else none,
    num_items := c.numItems,
    status := if optTruthy c.status then c.status else none,
    delivery_category := if optTruthy c.deliveryCategory then c.deliveryCategory else none,
    contents := c.contents.map (fun l => l.map mapContent),
    extraProperties :=
      match c.customProperties with
      | some l => l.filter (fun kv => !(reservedFields.contains kv.1))
      | none => [] }

/-- `ServerEventData` from src/types.ts (the fields read by validation
and the event builder). -/
structure ServerEventData where
  eventName : String
  eventTime : Option Int := none
  eventId : Option String := none
  actionSource : Option String := none
  eventSourceUrl : Option String := none
  userData : UserData := {}
  customData : CustomData := {}
  optOut : Option Bool := none
  dataProcessingOptions : Option (List String) := none
deriving DecidableEq

/-- The `validActionSources` list in `validateServerEventData`. -/
def validActionSources : List String :=
  ["email", "website", "phone_call", "chat", "physical_store",
   "system_generated", "business_messaging", "other"]

/-- `validateServerEventData` from src/MetaConversionTracker.ts.
`now` is `Date.now() / 1000` at the moment of the call.  A falsy event
name errors; a truthy action source outside the list errors; a truthy
(present and nonzero) event time outside
`[1_000_000_000, now + 3600]` errors.  The non-standard-event-name path
only emits a debug warning and is omitted (it never affects the result). -/
def validateServerEventData (now : ℚ) (e : ServerEventData) : Except TrackingError Unit :=
  if e.eventName = "" then
    .error ⟨"Event name is required", some "VALIDATION_ERROR"⟩
  else if optTruthy e.actionSource && !(validActionSources.contains (e.actionSource.getD "")) then
    .error ⟨"Invalid action source: " ++ e.actionSource.getD "", some "VALIDATION_ERROR"⟩
  else if (match e.eventTime with
      | some t => t ≠ 0 && (decide ((t : ℚ) < 1000000000) || decide (now + 3600 < (t : ℚ)))
      | none => false) then
    .error ⟨"Event time must be a valid Unix timestamp within reasonable bounds",
      some "VALIDATION_ERROR"⟩
  else
    .ok ()

/-- The per-event validation loop of `sendBatchEvents`: the first event
that fails validation aborts the batch with its index prepended to the
message. -/
def validateBatchEvents (now : ℚ) : List ServerEventData → Nat → Except TrackingError Unit
  | [], _ => .ok ()
  | e :: rest, i =>
    match validateServerEventData now e with
    | .ok _ => validateBatchEvents now rest (i + 1)
    | .error err =>
      .error ⟨"Event " ++ toString i ++ ": " ++ err.message, some "VALIDATION_ERROR"⟩

/-- Observable behaviour of one `sendBatchEvents` call: how many network
requests were issued, and the final outcome. -/
structure BatchRun where
  networkCalls : Nat
  result : Except TrackingError EventResponse

/-- `sendBatchEvents` from src/MetaConversionTracker.ts: an empty batch
or one of more than 1000 events raises a `VALIDATION_ERROR` before the
transport runs; then every event is validated; only then does the
retrying transport issue network requests (one per `retry` invocation). -/
def sendBatchEvents (now : ℚ) (outcomes : Nat → FetchOutcome) (jitter : Nat → ℚ)
    (events : List ServerEventData) : BatchRun :=
  if events.length = 0 then
    ⟨0, .error ⟨"Events array is required and cannot be empty", some "VALIDATION_ERROR"⟩⟩
  else if events.length > 1000 then
    ⟨0, .error ⟨"Maximum 1000 events per batch allowed", some "VALIDATION_ERROR"⟩⟩
  else
    match validateBatchEvents now events 0 with
    | .error err => ⟨0, .error err⟩
    | .ok _ =>
      let tr := sendEventTransport outcomes jitter
      ⟨tr.calls, tr.result⟩

/-- `ConversionAPIConfig` from src/types.ts, after the constructor's
defaulting of `debug` and `apiVersion`. -/
structure ConversionAPIConfig where
  pixelId : String
  accessToken : Option String := none
  debug : Bool := false
  apiVersion : String := "v18.0"
  testEventCode : Option String := none
  appSecret : Option String := none
  partnerAgent : Option String := none
deriving DecidableEq

/-- A `Partial<ConversionAPIConfig>` as passed to `updateConfig`: each
field is either absent or supplies a new value. -/
structure ConfigPatch where
  pixelId : Option String := none
  accessToken : Option String := none
  debug : Option Bool := none
  apiVersion : Option String := none
  testEventCode : Option String := none
  appSecret : Option String := none
  partnerAgent : Option String := none
deriving DecidableEq

/-- The object spread `{ ...this.config, ...newConfig }`: fields present
in the patch win. -/
def mergeConfig (c : ConversionAPIConfig) (p : ConfigPatch) : ConversionAPIConfig :=
  { pixelId := p.pixelId.getD c.pixelId,
    accessToken := match p.accessToken with | some t => some t | none => c.accessToken,
    debug := p.debug.getD c.debug,
    apiVersion := p.apiVersion.getD c.apiVersion,
    testEventCode := match p.testEventCode with | some t => some t | none => c.testEventCode,
    appSecret := match p.appSecret with | some t => some t | none => c.appSecret,
    partnerAgent := match p.partnerAgent with | some t => some t | none => c.partnerAgent }

/-- `validateConfig` applied to a `ConversionAPIConfig` object: it has a
`pixelId` and an `accessToken` field and no `currency` field. -/
def validateAPIConfig (c : ConversionAPIConfig) : ValidationResult :=
  validateConfig { pixelId := some c.pixelId, accessToken := c.accessToken, currency := none }

/-- The base-URL construction shared by the constructor and
`updateConfig`. -/
def computeBaseUrl (c : ConversionAPIConfig) : String :=
  "https://graph.facebook.com/" ++ c.apiVersion ++ "/" ++ c.pixelId ++ "/events"

/-- The mutable fields of a `MetaConversionTracker` instance. -/
structure TrackerState where
  config : ConversionAPIConfig
  baseUrl : String
deriving DecidableEq

/-- `updateConfig` from src/MetaConversionTracker.ts, as a state
transformer: it first overwrites `this.config` with the merge, then
recomputes `this.baseUrl` when the patch carries a truthy `pixelId` or
`apiVersion`, and only then validates — on failure the error is thrown
with the mutations already applied. -/
def updateConfig (s : TrackerState) (p : ConfigPatch) : TrackerState × Except TrackingError Unit :=
  let config := mergeConfig s.config p
  let baseUrl :=
    if optTruthy p.pixelId || optTruthy p.apiVersion then computeBaseUrl config else s.baseUrl
  let validation := validateAPIConfig config
  if validation.isValid then
    (⟨config, baseUrl⟩, .ok ())
  else
    (⟨config, baseUrl⟩,
      .error ⟨"Invalid configuration update: " ++ String.intercalate ", " validation.errors,
        some "CONFIG_ERROR"⟩)

/-- The wire `user_data` record built by `createUserData`; a key is
absent (`none`) when the corresponding normalized field is falsy. -/
structure WireUserData where
  em : Option String := none
  ph : Option String := none
  fn : Option String := none
  ln : Option String := none
  db : Option String := none
  ge : Option String := none
  ct : Option String := none
  st : Option String := none
  country : Option String := none
  zp : Option String := none
  f5first : Option String := none
  f5last : Option String := none
  fi : Option String := none
  dobd : Option String := none
  dobm : Option String := none
  doby : Option String := none
  external_id : Option String := none
  client_ip_address : Option String := none
  client_user_agent : Option String := none
  fbc : Option String := none
  fbp : Option String := none
  subscription_id : Option String := none
  fb_login_id : Option String := none
  lead_id : Option String := none
deriving DecidableEq

/-- `userDataObj.key = hashData(field)` guarded by truthiness.
`hashAgain` stands for the eventual digest of the asynchronous
`hashData` the source applies on top of the already-normalized field. -/
def wireHashed (hashAgain : String → String) (o : Option String) : Option String :=
  if optTruthy o then some (hashAgain (o.getD "")) else none

/-- `userDataObj.key = field` guarded by truthiness. -/
def wirePass (o : Option String) : Option String :=
  if optTruthy o then o else none

/-- `createUserData` from src/MetaConversionTracker.ts: the input is
first passed through `normalizeUserData` (with the ambient `hashDataSync`
abstracted as `hashSync`), then the matching fields get a second
`hashData` digest (`hashAgain`) while the block commented
"External identifiers (not hashed)" copies the normalized values
unchanged. -/
def createUserData (hashAgain hashSync : String → String) (u : UserData) : WireUserData :=
  let n := normalizeUserData hashSync u
  { em := wireHashed hashAgain n.email,
    ph := wireHashed hashAgain n.phone,
    fn := wireHashed hashAgain n.firstName,
    ln := wireHashed hashAgain n.lastName,
    db := wireHashed hashAgain n.dateOfBirth,
    ge := wireHashed hashAgain n.gender,
    ct := wireHashed hashAgain n.city,
    st := wireHashed hashAgain n.state,
    country := wireHashed hashAgain n.country,
    zp := wireHashed hashAgain n.zipCode,
    f5first := wireHashed hashAgain n.f5first,
    f5last := wireHashed hashAgain n.f5last,
    fi := wireHashed hashAgain n.fi,
    dobd := wireHashed hashAgain n.dobd,
    dobm := wireHashed hashAgain n.dobm,
    doby := wireHashed hashAgain n.doby,
    external_id := wirePass n.externalId,
    client_ip_address := wirePass n.clientIpAddress,
    client_user_agent := wirePass n.clientUserAgent,
    fbc := wirePass n.fbc,
    fbp := wirePass n.fbp,
    subscription_id := wirePass n.subscriptionId,
    fb_login_id := wirePass n.fbLoginId,
    lead_id := wirePass n.leadId }

/-- Helper: on an action that fails on every invocation, the retry loop
starting at counter `i` with `fuel` iterations left makes `fuel + 1`
calls, sleeps the backoff delays for exponents `i, i+1, …, i+fuel-1`,
and ends with the error of the last invocation. -/
theorem retryRun_always_error {E A : Type} (action : Nat → Except E A) (errAt : Nat → E)
    (hfail : ∀ i, action i = .error (errAt i)) (delay : ℚ) (jitter : Nat → ℚ) :
    ∀ fuel i, retryRun action delay jitter i fuel =
      ⟨fuel + 1,
       (List.range fuel).map (fun k => delay * 2 ^ (i + k) + jitter (i + k)),
       .error (errAt (i + fuel))⟩ := by
  intro fuel
  induction fuel with
  | zero =>
    intro i
    simp [retryRun, hfail i]
  | succ f ih =>
    intro i
    have hstep : retryRun action delay jitter i (f + 1) =
        ⟨(retryRun action delay jitter (i + 1) f).calls + 1,
         (delay * 2 ^ i + jitter i) :: (retryRun action delay jitter (i + 1) f).delays,
         (retryRun action delay jitter (i + 1) f).result⟩ := by
      simp [retryRun, hfail i]
    rw [hstep, ih (i + 1)]
    simp only [RetryTrace.mk.injEq]
    refine ⟨by trivial, ?_, ?_⟩
    · rw [List.range_succ_eq_map, List.map_cons, List.map_map]
      refine congrArg₂ List.cons (by simp) ?_
      refine List.map_congr_left ?_
      intro k _
      have h1 : i + 1 + k = i + (k + 1) := by omega
      simp [Function.comp, h1]
    · have h2 : i + 1 + f = i + (f + 1) := by omega
      rw [h2]

/-- Helper: every run of the retry loop invokes the action at least
once. -/
theorem retryRun_calls_pos {E A : Type} (action : Nat → Except E A) (delay : ℚ)
    (jitter : Nat → ℚ) :
    ∀ fuel i, 1 ≤ (retryRun action delay jitter i fuel).calls := by
  intro fuel i
  cases fuel with
  | zero => cases h : action i <;> simp [retryRun, h]
  | succ f => cases h : action i <;> simp [retryRun, h]

/-- Claim C1, counterexample: `retry` called with second argument 1 on an
action that fails on every invocation invokes the action twice, not
exactly once as the claim states for `maxAttempts = 1`. -/
theorem retry_count_counterexample :
    (retry (fun i => (Except.error i : Except Nat Unit)) 1 1000 (fun _ => 0)).calls = 2
    ∧ (retry (fun i => (Except.error i : Except Nat Unit)) 1 1000 (fun _ => 0)).calls ≠ 1 := by
  constructor <;> decide

/-- Claim C1 (amended): for an action failing on every invocation,
`retry(action, maxRetries, baseDelay)` invokes the action exactly
`maxRetries + 1` times (the second parameter counts retries after the
first attempt, not total attempts); the delay slept before retry `k`
(zero-indexed) is `baseDelay * 2^k` plus a jitter in `[0, 1000)`; and
when the counter is exhausted the very error value produced by the last
invocation is re-raised unchanged. -/
theorem retry_invocation_count_and_backoff {E A : Type}
    (action : Nat → Except E A) (errAt : Nat → E)
    (hfail : ∀ i, action i = .error (errAt i))
    (maxRetries : Nat) (baseDelay : ℚ) (jitter : Nat → ℚ)
    (hjit : ∀ k, 0 ≤ jitter k ∧ jitter k < 1000) :
    (retry action maxRetries baseDelay jitter).calls = maxRetries + 1
    ∧ (retry action maxRetries baseDelay jitter).result = .error (errAt maxRetries)
    ∧ (retry action maxRetries baseDelay jitter).delays
        = (List.range maxRetries).map (fun k => baseDelay * 2 ^ k + jitter k)
    ∧ ∀ k, k < maxRetries →
        ∃ d, (retry action maxRetries baseDelay jitter).delays[k]? = some d
          ∧ baseDelay * 2 ^ k ≤ d ∧ d < baseDelay * 2 ^ k + 1000 := by
  have h := retryRun_always_error action errAt hfail baseDelay jitter maxRetries 0
  unfold retry
  rw [h]
  refine ⟨rfl, by simp, by simp, ?_⟩
  intro k hk
  refine ⟨baseDelay * 2 ^ k + jitter k, ?_, ?_, ?_⟩
  · simp [hk]
  · have := (hjit k).1
    linarith
  · have := (hjit k).2
    linarith

/-- Witness for `retry_invocation_count_and_backoff` at a concrete
always-failing action with `maxRetries = 2`. -/
theorem retry_invocation_count_and_backoff_witness :
    (retry (fun i => (Except.error i : Except Nat Unit)) 2 1000 (fun _ => 0)).calls = 3
    ∧ (retry (fun i => (Except.error i : Except Nat Unit)) 2 1000 (fun _ => 0)).result
        = .error 2 := by
  have h := retry_invocation_count_and_backoff
    (fun i => (Except.error i : Except Nat Unit)) (fun i => i) (fun _ => rfl)
    2 1000 (fun _ => 0) (fun _ => ⟨le_refl 0, by norm_num⟩)
  exact ⟨h.1, h.2.1⟩

/-- Helper: a failing invocation with fuel left adds one call on top of
the rest of the loop. -/
theorem retryRun_calls_succ_of_error {E A : Type} (action : Nat → Except E A) (delay : ℚ)
    (jitter : Nat → ℚ) (i f : Nat) (e : E) (h : action i = .error e) :
    (retryRun action delay jitter i (f + 1)).calls
      = (retryRun action delay jitter (i + 1) f).calls + 1 := by
  simp [retryRun, h]

/-- Claim C2, counterexample: with every request producing a 2xx response
whose body fails to parse, the retrying transport invokes the action four
times — a parse failure of a success response is retried, not left
un-reinvoked as the claim states. -/
theorem parse_failure_retry_counterexample :
    (sendEventTransport (fun _ => .resp 200 (.error "Unexpected token") none)
      (fun _ => 0)).calls = 4
    ∧ (sendEventTransport (fun _ => .resp 200 (.error "Unexpected token") none)
      (fun _ => 0)).calls ≠ 1 := by
  constructor <;> decide

/-- Claim C2 (amended): the code has no unretried `ParseError` class —
a parse failure of a 2xx response is rethrown by `makeRequest` as a
`TrackingError` with code `API_ERROR`, and the retry wrapper re-invokes
the action on every error, so after such a parse failure the action is
invoked again (at least once more under the tracker's
`retryAttempts = 3`). -/
theorem parse_failure_is_api_error_and_retried
    (outcomes : Nat → FetchOutcome) (jitter : Nat → ℚ) (pm : String) (em : Option String)
    (h0 : outcomes 0 = .resp 200 (.error pm) em) :
    makeRequest (outcomes 0) = .error ⟨"API request failed: " ++ pm, some "API_ERROR"⟩
    ∧ 2 ≤ (sendEventTransport outcomes jitter).calls := by
  have hreq : makeRequest (outcomes 0)
      = .error ⟨"API request failed: " ++ pm, some "API_ERROR"⟩ := by
    rw [h0]
    simp [makeRequest]
  refine ⟨hreq, ?_⟩
  unfold sendEventTransport retry
  have haction : (fun i => (makeRequest (outcomes i)).map transformResponse) 0
      = .error ⟨"API request failed: " ++ pm, some "API_ERROR"⟩ := by
    simp [hreq, Except.map]
  rw [show (3 : Nat) = 2 + 1 from rfl,
    retryRun_calls_succ_of_error _ 1000 jitter 0 2 _ haction]
  have := retryRun_calls_pos (fun i => (makeRequest (outcomes i)).map transformResponse)
    1000 jitter 2 (0 + 1)
  omega

/-- Witness for `parse_failure_is_api_error_and_retried` at a concrete
outcome sequence. -/
theorem parse_failure_is_api_error_and_retried_witness :
    makeRequest (.resp 200 (.error "Unexpected token") none)
      = .error ⟨"API request failed: Unexpected token", some "API_ERROR"⟩
    ∧ 2 ≤ (sendEventTransport (fun _ => .resp 200 (.error "Unexpected token") none)
      (fun _ => 0)).calls :=
  parse_failure_is_api_error_and_retried
    (fun _ => .resp 200 (.error "Unexpected token") none) (fun _ => 0)
    "Unexpected token" none rfl
/-- Claim C3: a batch that is empty or has more than 1000 events makes
`sendBatchEvents` fail with a `VALIDATION_ERROR` before the transport
runs — the network request function is invoked zero times. -/
theorem sendBatchEvents_size_guard (now : ℚ) (outcomes : Nat → FetchOutcome)
    (jitter : Nat → ℚ) (events : List ServerEventData)
    (hsize : events.length = 0 ∨ events.length > 1000) :
    (sendBatchEvents now outcomes jitter events).networkCalls = 0
    ∧ ∃ err, (sendBatchEvents now outcomes jitter events).result = .error err
        ∧ err.code = some "VALIDATION_ERROR" := by
  rcases hsize with h | h
  · constructor
    · simp [sendBatchEvents, h]
    · exact ⟨⟨"Events array is required and cannot be empty", some "VALIDATION_ERROR"⟩,
        by simp [sendBatchEvents, h], rfl⟩
  · have hne : events.length ≠ 0 := by omega
    constructor
    · simp [sendBatchEvents, hne, h]
    · exact ⟨⟨"Maximum 1000 events per batch allowed", some "VALIDATION_ERROR"⟩,
        by simp [sendBatchEvents, hne, h], rfl⟩

/-- Witness for `sendBatchEvents_size_guard` on a concrete batch of 1001
events. -/
theorem sendBatchEvents_size_guard_witness :
    (sendBatchEvents 0 (fun _ => .netFail "down") (fun _ => 0)
      (List.replicate 1001 { eventName := "PageView" })).networkCalls = 0
    ∧ ∃ err, (sendBatchEvents 0 (fun _ => .netFail "down") (fun _ => 0)
        (List.replicate 1001 { eventName := "PageView" })).result = .error err
        ∧ err.code = some "VALIDATION_ERROR" :=
  sendBatchEvents_size_guard 0 _ _ _ (Or.inr (by simp))

/-- Claim C4, counterexample: with the browser-fallback hash environment,
the Normalizer rewrites a present `externalId` to its digest; it does not
pass it through unhashed. -/
theorem externalId_passthrough_counterexample :
    (normalizeUserData (fun s => hashDataSync (fun t => t) ⟨false, false⟩ (.str s))
      { externalId := some "user-123" }).externalId ≠ some "user-123" := by
  decide

/-- Claim C4 (amended): `normalizeUserData` hashes a truthy `externalId`
(just as it hashes email and phone), while the remaining opaque-token
fields — client IP address, client user agent, click id `fbc`, browser
id `fbp` — leave the Normalizer with their original values; the wire
builder then carries the hashed external id into `external_id`
unchanged. -/
theorem normalizeUserData_externalId_hashed (hash hashAgain : String → String) (u : UserData)
    (s : String) (hs : u.externalId = some s) (hne : s ≠ "") (hh : hash s ≠ "") :
    (normalizeUserData hash u).externalId = some (hash s)
    ∧ (normalizeUserData hash u).clientIpAddress = u.clientIpAddress
    ∧ (normalizeUserData hash u).clientUserAgent = u.clientUserAgent
    ∧ (normalizeUserData hash u).fbc = u.fbc
    ∧ (normalizeUserData hash u).fbp = u.fbp
    ∧ (createUserData hashAgain hash u).external_id = some (hash s) := by
  have h1 : (normalizeUserData hash u).externalId = some (hash s) := by
    simp [normalizeUserData, hashField, hs, hne]
  refine ⟨h1, rfl, rfl, rfl, rfl, ?_⟩
  simp [createUserData, wirePass, h1, optTruthy, hh]

/-- Witness for `normalizeUserData_externalId_hashed` at a concrete user
record in the browser-fallback hash environment. -/
theorem normalizeUserData_externalId_hashed_witness :
    (normalizeUserData (fun s => hashDataSync (fun t => t) ⟨false, false⟩ (.str s))
      { externalId := some "user-123" }).externalId
      = some (hashDataSync (fun t => t) ⟨false, false⟩ (.str "user-123")) :=
  (normalizeUserData_externalId_hashed
    (fun s => hashDataSync (fun t => t) ⟨false, false⟩ (.str s))
    (fun s => hashDataSync (fun t => t) ⟨false, false⟩ (.str s))
    { externalId := some "user-123" } "user-123" rfl (by decide) (by decide)).1
/-- Claim C5: `hashDataSync` is deterministic (repeated evaluation on the
same input in the same environment yields equal digests — the model is a
pure function, mirroring the source's freedom from hidden state); the
input is lower-cased and trimmed before digesting; and the empty string
or a non-string input yields the empty string with no error (the model
is total). -/
theorem hashDataSync_deterministic_and_normalizing
    (sha256 : String → String) (env : RuntimeEnv) :
    (∀ x, hashDataSync sha256 env x = hashDataSync sha256 env x)
    ∧ hashDataSync sha256 env (.str "") = ""
    ∧ hashDataSync sha256 env .nonString = ""
    ∧ ∀ s, s ≠ "" →
        hashDataSync sha256 env (.str s)
          = digestDispatch sha256 env (jsTrim (jsToLower s)) := by
  refine ⟨fun _ => rfl, rfl, rfl, ?_⟩
  intro s hs
  simp [hashDataSync, digestDispatch, hs]

/-- Witness for `hashDataSync_deterministic_and_normalizing` at a
concrete mixed-case padded input in the fallback environment. -/
theorem hashDataSync_deterministic_and_normalizing_witness :
    hashDataSync (fun t => t) ⟨false, false⟩ (.str " User@Example.COM ")
      = digestDispatch (fun t => t) ⟨false, false⟩ (jsTrim (jsToLower " User@Example.COM "))
    ∧ hashDataSync (fun t => t) ⟨false, false⟩ (.str "") = "" := by
  have h := hashDataSync_deterministic_and_normalizing (fun t => t) ⟨false, false⟩
  exact ⟨h.2.2.2 _ (by decide), h.2.1⟩

/-- Claim C6: `transformResponse` is a pure total function: absent count
fields default to 0, absent messages default to the empty list, and the
empty raw record maps to the all-zero response (the Lean model is total
by construction, so no input throws). -/
theorem transformResponse_total_defaults :
    (∀ r : RawResponse,
      (r.events_received = none → (transformResponse r).eventsReceived = 0)
      ∧ (r.messages = none → (transformResponse r).messages = [])
      ∧ (r.num_processed_entries = none → (transformResponse r).numProcessedEntries = 0))
    ∧ transformResponse {} =
        { eventsReceived := 0, events_received := 0, messages := [],
          fbtrace_id := none, id := none, numProcessedEntries := 0 } := by
  refine ⟨?_, rfl⟩
  intro r
  refine ⟨fun h => ?_, fun h => ?_, fun h => ?_⟩ <;> simp [transformResponse, h]

/-- Witness for `transformResponse_total_defaults` at the empty raw
record. -/
theorem transformResponse_total_defaults_witness :
    (transformResponse {}).eventsReceived = 0
    ∧ (transformResponse {}).messages = []
    ∧ (transformResponse {}).numProcessedEntries = 0 :=
  ⟨(transformResponse_total_defaults.1 {}).1 rfl,
   (transformResponse_total_defaults.1 {}).2.1 rfl,
   (transformResponse_total_defaults.1 {}).2.2 rfl⟩

/-- Claim C7, counterexample: a valid pixel id together with an access
token of length exactly 50 is rejected by `validateConfig` with an
access-token format error, contrary to the claim that length 50 is
accepted. -/
theorem accessToken_length50_counterexample :
    (validateConfig { pixelId := some "123456789012345",
                      accessToken := some (String.mk (List.replicate 50 'a')),
                      currency := none }).isValid = false
    ∧ (validateConfig { pixelId := some "123456789012345",
                        accessToken := some (String.mk (List.replicate 50 'a')),
                        currency := none }).errors = ["Invalid access token format"] := by
  constructor <;> decide

/-- Claim C7 (amended): configuration validation accepts a valid pixel id
with an access token of length at least 51 — `isValidAccessToken`
requires length strictly greater than 50, so a token of length exactly
50 is rejected. -/
theorem validateConfig_accepts_token_longer_than_50 (pid tok : String) (cur : Option String)
    (hp : isValidPixelId pid = true) (ht : tok.length > 50) :
    (validateConfig { pixelId := some pid, accessToken := some tok,
                      currency := cur }).isValid = true := by
  have hpid_ne : pid ≠ "" := by
    intro h
    rw [h] at hp
    exact absurd hp (by decide)
  have htr : optTruthy (some pid) = true := by simp [optTruthy, hpid_ne]
  have htok : isValidAccessToken tok = true := by
    simp [isValidAccessToken]
    omega
  simp [validateConfig, htr, hp, htok]

/-- Witness for `validateConfig_accepts_token_longer_than_50` at a
51-character token. -/
theorem validateConfig_accepts_token_longer_than_50_witness :
    (validateConfig { pixelId := some "123456789012345",
                      accessToken := some (String.mk (List.replicate 51 'a')),
                      currency := none }).isValid = true :=
  validateConfig_accepts_token_longer_than_50 "123456789012345"
    (String.mk (List.replicate 51 'a')) none (by decide) (by decide)
/-- Claim C8: `updateConfig` is not atomic on failure — when the merged
configuration fails validation it raises a `CONFIG_ERROR`, but by then
the stored configuration (and, when the patch carries a truthy pixel id
or API version, the base URL) has already been replaced by the merged
values; the pre-call configuration is not restored. -/
theorem updateConfig_not_atomic (s : TrackerState) (p : ConfigPatch)
    (hinvalid : (validateAPIConfig (mergeConfig s.config p)).isValid = false) :
    (updateConfig s p).1.config = mergeConfig s.config p
    ∧ (updateConfig s p).1.baseUrl
        = (if optTruthy p.pixelId || optTruthy p.apiVersion
           then computeBaseUrl (mergeConfig s.config p) else s.baseUrl)
    ∧ ∃ err, (updateConfig s p).2 = .error err ∧ err.code = some "CONFIG_ERROR" := by
  refine ⟨by simp [updateConfig, hinvalid], by simp [updateConfig, hinvalid], ?_⟩
  exact ⟨⟨"Invalid configuration update: "
      ++ String.intercalate ", " (validateAPIConfig (mergeConfig s.config p)).errors,
      some "CONFIG_ERROR"⟩,
    by simp [updateConfig, hinvalid], rfl⟩

/-- Witness for `updateConfig_not_atomic`: patching a valid tracker with
an invalid pixel id leaves the invalid value stored while the error is
raised. -/
theorem updateConfig_not_atomic_witness :
    (updateConfig ⟨{ pixelId := "123456789012345" }, "old-url"⟩
      { pixelId := some "bad" }).1.config.pixelId = "bad"
    ∧ ∃ err, (updateConfig ⟨{ pixelId := "123456789012345" }, "old-url"⟩
        { pixelId := some "bad" }).2 = .error err ∧ err.code = some "CONFIG_ERROR" := by
  have h := updateConfig_not_atomic ⟨{ pixelId := "123456789012345" }, "old-url"⟩
    { pixelId := some "bad" } (by decide)
  exact ⟨by rw [h.1]; rfl, h.2.2⟩

/-- Claim C9: the timestamp bound check is skipped for a falsy event
time — `validateServerEventData` accepts an event whose `eventTime` is 0
(raising no error) even though 0 is below the lower bound 1_000_000_000,
and the bounds are enforced as soon as the event time is present and
nonzero. -/
theorem validateServerEventData_zero_time (now : ℚ) (e : ServerEventData)
    (hname : e.eventName ≠ "")
    (hsrc : optTruthy e.actionSource = false
      ∨ validActionSources.contains (e.actionSource.getD "") = true) :
    (e.eventTime = some 0 → validateServerEventData now e = .ok ())
    ∧ ∀ t : Int, e.eventTime = some t → t ≠ 0 → (t : ℚ) < 1000000000 →
        validateServerEventData now e
          = .error ⟨"Event time must be a valid Unix timestamp within reasonable bounds",
              some "VALIDATION_ERROR"⟩ := by
  have hsrcfalse : (optTruthy e.actionSource
      && !(validActionSources.contains (e.actionSource.getD ""))) = false := by
    rcases hsrc with h | h
    · rw [h]
      rfl
    · rw [h]
      simp
  constructor
  · intro ht
    unfold validateServerEventData
    rw [if_neg hname, if_neg (by rw [hsrcfalse]; simp), if_neg (by simp [ht])]
  · intro t ht hnz hlow
    unfold validateServerEventData
    rw [if_neg hname, if_neg (by rw [hsrcfalse]; simp), if_pos (by simp [ht, hnz, hlow])]

/-- Witness for `validateServerEventData_zero_time` at a concrete event
with `eventTime = 0`. -/
theorem validateServerEventData_zero_time_witness :
    validateServerEventData 0 { eventName := "PageView", eventTime := some 0 } = .ok () :=
  (validateServerEventData_zero_time 0 { eventName := "PageView", eventTime := some 0 }
    (by decide) (Or.inl rfl)).1 rfl

/-- Claim C10: in the wire custom data each contents item is transmitted
with the input quantity when that quantity is present and nonzero and
with quantity 1 otherwise (absent or zero), so an explicit quantity of 0
never appears in the wire event. -/
theorem createCustomData_contents_quantity (c : CustomData) (items : List ContentItem)
    (h : c.contents = some items) :
    (createCustomData c).contents = some (items.map mapContent)
    ∧ (∀ x ∈ items, ∀ q : Int, x.quantity = some q → q ≠ 0 → (mapContent x).quantity = q)
    ∧ (∀ x ∈ items, x.quantity = none ∨ x.quantity = some 0 → (mapContent x).quantity = 1)
    ∧ ∀ x ∈ items, (mapContent x).quantity ≠ 0 := by
  refine ⟨by simp [createCustomData, h], ?_, ?_, ?_⟩
  · intro x _ q hq hnz
    simp [mapContent, hq, hnz]
  · intro x _ hq
    rcases hq with h0 | h0 <;> simp [mapContent, h0]
  · intro x _
    rcases hx : x.quantity with _ | q
    · simp [mapContent, hx]
    · by_cases hq : q = 0
      · simp [mapContent, hx, hq]
      · simp [mapContent, hx, hq]

/-- Witness for `createCustomData_contents_quantity` on a batch with one
zero-quantity and one nonzero-quantity item. -/
theorem createCustomData_contents_quantity_witness :
    (createCustomData { contents := some [{ id := "p1", quantity := some 0 }, { id := "p2", quantity := some 2 }] }).contents
      = some ([{ id := "p1", quantity := some 0 }, { id := "p2", quantity := some 2 }].map mapContent)
    ∧ (mapContent { id := "p1", quantity := some 0 }).quantity = 1
    ∧ (mapContent { id := "p2", quantity := some 2 }).quantity = 2 := by
  have h := createCustomData_contents_quantity
    { contents := some [{ id := "p1", quantity := some 0 }, { id := "p2", quantity := some 2 }] }
    [{ id := "p1", quantity := some 0 }, { id := "p2", quantity := some 2 }] rfl
  exact ⟨h.1, h.2.2.1 _ (by simp) (Or.inr rfl), h.2.1 _ (by simp) 2 rfl (by decide)⟩
